import Mathlib

/-!
Verification development for the gphoto2go camera library.

The definitions below are a shallow embedding of `gphoto2go.go`:

* Go strings are modelled as `List Char`;
* `uint64` arithmetic is modelled on `Nat` with explicit wraparound
  modulo `2 ^ 64` (`sub64`, `add64`), exactly where the source uses
  `uint64` subtraction and addition;
* the native libgphoto2 calls are modelled as oracle parameters (for
  listings) or as integer result-code parameters (for config calls),
  matching the source's treatment of them as opaque collaborators;
* side effects on native resources (channel sends, `gp_widget_free`,
  `gp_file_free`) are made explicit as values so that theorems can
  speak about them.
-/

set_option autoImplicit false

namespace Gphoto2go

/-! ### uint64 arithmetic -/

def UINT64_MOD : Nat := 2 ^ 64

/-- `uint64` subtraction `a - b` (wraparound), for representable `a`, `b`. -/
def sub64 (a b : Nat) : Nat := (a + (UINT64_MOD - b)) % UINT64_MOD

/-- `uint64` addition `a + b` (wraparound). -/
def add64 (a b : Nat) : Nat := (a + b) % UINT64_MOD

/-! ### FileStreamReader (`cameraFileReader` in the source)

The reader state carries the fields of the Go struct that the claims are
about, plus `data`, the byte contents of the native buffer `cBuffer`
(one `Nat` per byte).  The fixed-size scratch array `buffer` of the Go
struct only contributes its length (`fileReaderBufferSize`) to `Read`,
so it is not part of the state. -/

/-- `const fileReaderBufferSize = 1 * 1024 * 1024` — the 1 MiB chunk ceiling. -/
def fileReaderBufferSize : Nat := 1 * 1024 * 1024

structure CameraFileReader where
  fullSize : Nat
  offset : Nat
  closed : Bool
  data : List Nat
deriving DecidableEq, Repr

/-- Errors `cameraFileReader.Read` can return: `io.ErrClosedPipe` and `io.EOF`. -/
inductive ReadErr where
  | closedPipe
  | eof
deriving DecidableEq, Repr

/-- The outcome of one `Read(p)` call: the returned byte count, the
returned error (if any), the reader state afterwards, and the contents
of the caller's buffer `p` afterwards. -/
structure ReadResult where
  count : Nat
  err : Option ReadErr
  state : CameraFileReader
  buf : List Nat
deriving DecidableEq, Repr

/-- `cameraFileReader.Read`, translated line by line from the source. -/
def read (cfr : CameraFileReader) (p : List Nat) : ReadResult :=
  if cfr.closed then
    { count := 0, err := some ReadErr.closedPipe, state := cfr, buf := p }
  else
    let n := p.length
    if n = 0 then
      { count := 0, err := none, state := cfr, buf := p }
    else
      let bufLen := fileReaderBufferSize
      let remaining := sub64 cfr.fullSize cfr.offset
      let toRead0 := if bufLen > remaining then remaining else bufLen
      let toRead := if toRead0 > n then n else toRead0
      let buf := (cfr.data.drop cfr.offset).take toRead ++ p.drop toRead
      let offset1 := add64 cfr.offset toRead
      let cfr1 : CameraFileReader := { cfr with offset := offset1 }
      if offset1 < cfr.fullSize then
        { count := toRead, err := none, state := cfr1, buf := buf }
      else
        { count := toRead, err := some ReadErr.eof, state := cfr1, buf := buf }

/-- The outcome of one `Close()` call: the returned error, the reader
state afterwards, and how many times `gp_file_free` was invoked by this
call. -/
structure CloseResult where
  err : Option Unit
  state : CameraFileReader
  releases : Nat
deriving DecidableEq, Repr

/-- `cameraFileReader.Close`, translated from the source: frees the
native file exactly when `closed` is still false, then latches `closed`;
always returns `nil`. -/
def close (cfr : CameraFileReader) : CloseResult :=
  if !cfr.closed then
    { err := none, state := { cfr with closed := true }, releases := 1 }
  else
    { err := none, state := cfr, releases := 0 }

/-- The reader returned by `Camera.FileReader`: `offset = 0`,
`closed = false`, `fullSize` and the buffer from the native fetch. -/
def fileReader (fullSize : Nat) (data : List Nat) : CameraFileReader :=
  { fullSize := fullSize, offset := 0, closed := false, data := data }

/-- The state invariant of a reader: the offset never passes the total
size, and the total size is representable as `uint64` (it comes from a C
`unsigned long`). -/
def Inv (cfr : CameraFileReader) : Prop :=
  cfr.offset ≤ cfr.fullSize ∧ cfr.fullSize < UINT64_MOD

instance (cfr : CameraFileReader) : Decidable (Inv cfr) := by
  unfold Inv; infer_instance

/-- The copy size `toRead` that `Read` computes on an open reader whose
offset obeys the invariant: the least of the caller's buffer length, the
remaining bytes, and the 1 MiB chunk ceiling. -/
def toReadVal (cfr : CameraFileReader) (p : List Nat) : Nat :=
  min p.length (min (cfr.fullSize - cfr.offset) fileReaderBufferSize)

/-- One caller-visible operation on a reader. -/
inductive Op where
  | read (p : List Nat)
  | close
deriving DecidableEq, Repr

def step (s : CameraFileReader) : Op → CameraFileReader
  | Op.read p => (read s p).state
  | Op.close => (Gphoto2go.close s).state

def runOps (s : CameraFileReader) (ops : List Op) : CameraFileReader :=
  ops.foldl step s

/-! ### Recursive folder listing (`Camera.RListFolders`)

Go strings are `List Char`.  The native call
`gp_camera_folder_list_folders` is an oracle
`native : GoStr → Except Unit (List GoStr)` giving, for a folder path,
either its list of direct subfolder names or a failure. -/

abbrev GoStr := List Char

/-- `strings.HasSuffix(path, "/")`. -/
def hasSuffixSlash (s : GoStr) : Bool := s.getLast? == some '/'

/-- The path normalization at the top of `RListFolders`: append `"/"`
exactly when the path does not already end with it. -/
def ensureSlash (folder : GoStr) : GoStr :=
  if hasSuffixSlash folder then folder else folder ++ ['/']

/-- `Camera.ListFolders` as seen by its callers: normalizes the empty
path to `"/"`, and on native failure returns the empty slice together
with the error; on success returns the listed names and no error. -/
def listFolders (native : GoStr → Except Unit (List GoStr)) (folder : GoStr) :
    List GoStr × Option Unit :=
  let folder := if folder = [] then ['/'] else folder
  match native folder with
  | Except.error e => ([], some e)
  | Except.ok subs => (subs, none)

/-- `Camera.RListFolders`, translated from the source; `fuel` bounds the
recursion depth (the Go recursion is unbounded in general).  Note the
error from `ListFolders` is discarded (`subfolders, _ := ...`). -/
def rListFolders (native : GoStr → Except Unit (List GoStr)) :
    Nat → GoStr → List GoStr
  | 0, _ => []
  | fuel + 1, folder =>
    let path := ensureSlash folder
    let subfolders := (listFolders native path).1
    subfolders.foldl
      (fun folders sub =>
        (folders ++ [path ++ sub]) ++ rListFolders native fuel (path ++ sub))
      []

/-- An oracle identical to `native` except that every failure is
replaced by a successful empty listing. -/
def recover (native : GoStr → Except Unit (List GoStr)) :
    GoStr → Except Unit (List GoStr) := fun folder =>
  match native folder with
  | Except.error _ => Except.ok []
  | Except.ok subs => Except.ok subs

/-- Modelled from the claim's words (not from the source), for
comparison: the listing order in which all of a folder's direct
subfolder paths are appended to the output before recursing into each
of them. -/
def rListFoldersClaimed (native : GoStr → Except Unit (List GoStr)) :
    Nat → GoStr → List GoStr
  | 0, _ => []
  | fuel + 1, folder =>
    let path := ensureSlash folder
    let subfolders := (listFolders native path).1
    subfolders.map (fun sub => path ++ sub) ++
      (subfolders.map (fun sub => rListFoldersClaimed native fuel (path ++ sub))).flatten

/-- A concrete three-folder device tree: `/` contains `a` and `c`, and
`/a/` contains `b`. -/
def exampleNative : GoStr → Except Unit (List GoStr)
  | ['/'] => Except.ok [['a'], ['c']]
  | ['/', 'a', '/'] => Except.ok [['b']]
  | _ => Except.ok []

/-- A concrete oracle that fails at the root listing. -/
def failingNative : GoStr → Except Unit (List GoStr)
  | ['/'] => Except.error ()
  | ['/', 'a', '/'] => Except.ok [['b']]
  | _ => Except.ok []

/-! ### Asynchronous event waiting (`Camera.AsyncWaitForEvent`)

The goroutine spawned by `AsyncWaitForEvent` performs a sequence of
operations on the returned channel; that sequence is modelled as a list
of `ChanOp`, as a function of what the native wait produced. -/

abbrev CameraEventType := Int

def EventUnknown : CameraEventType := 0
def EventTimeout : CameraEventType := 1
def EventFileAdded : CameraEventType := 2

structure CameraEvent where
  type : CameraEventType
  folder : GoStr
  file : GoStr
deriving DecidableEq, Repr

/-- The `C.CameraFilePath` payload the native wait may hand back. -/
structure CCameraFilePath where
  name : GoStr
  folder : GoStr
deriving DecidableEq, Repr

/-- `cCameraEventToGoCameraEvent`, translated from the source:
`Folder`/`File` are populated only for `EventFileAdded`. -/
def cCameraEventToGoCameraEvent (payload : CCameraFilePath)
    (eventType : CameraEventType) : CameraEvent :=
  if eventType = EventFileAdded then
    { type := eventType, folder := payload.folder, file := payload.name }
  else
    { type := eventType, folder := [], file := [] }

/-- An operation performed on the channel returned by `AsyncWaitForEvent`. -/
inductive ChanOp where
  | send (e : CameraEvent)
  | close
deriving DecidableEq, Repr

/-- The complete sequence of channel operations performed by the
goroutine spawned by `AsyncWaitForEvent`, given the event type and
payload produced by the native wait: it sends the decoded event once and
then terminates, without closing the channel. -/
def asyncWaitForEventChanOps (payload : CCameraFilePath)
    (eventType : CameraEventType) : List ChanOp :=
  [ChanOp.send (cCameraEventToGoCameraEvent payload eventType)]

/-! ### Configuration fetch (`Camera.GetConfig`)

`gp_widget_new` and `gp_camera_get_config` are opaque native calls; the
embedding takes their integer result codes as parameters and records the
native calls `GetConfig` makes, in order, including the frees. -/

/-- `cameraResultToError`: non-zero native result codes become errors. -/
def cameraResultToError (err : Int) : Option Int :=
  if err ≠ 0 then some err else none

/-- A native call performed by `GetConfig`, in program order. -/
inductive GetConfigEffect where
  | gpWidgetNew
  | cFree
  | gpCameraGetConfig
  | gpWidgetFree
deriving DecidableEq, Repr

/-- The outcome of `GetConfig`: whether a root widget was returned,
the returned error code if any, and the native calls performed. -/
structure GetConfigResult where
  ok : Bool
  err : Option Int
  effects : List GetConfigEffect
deriving DecidableEq, Repr

/-- `Camera.GetConfig`, translated from the source: allocate the root
window widget, then populate it from the device; on allocation failure
`C.free` the pointer, on population failure free the root via
`w.Free()` (`gp_widget_free`) before returning the error. -/
def getConfig (widgetNewRes cameraGetConfigRes : Int) : GetConfigResult :=
  match cameraResultToError widgetNewRes with
  | some e =>
    { ok := false, err := some e,
      effects := [GetConfigEffect.gpWidgetNew, GetConfigEffect.cFree] }
  | none =>
    match cameraResultToError cameraGetConfigRes with
    | some e =>
      { ok := false, err := some e,
        effects := [GetConfigEffect.gpWidgetNew,
          GetConfigEffect.gpCameraGetConfig, GetConfigEffect.gpWidgetFree] }
    | none =>
      { ok := true, err := none,
        effects := [GetConfigEffect.gpWidgetNew,
          GetConfigEffect.gpCameraGetConfig] }

/-! ## Theorems -/

/-! ### Arithmetic helper lemmas -/

theorem sub64_eq_sub {a b : Nat} (hba : b ≤ a) (ha : a < UINT64_MOD) :
    sub64 a b = a - b := by
  unfold sub64 UINT64_MOD at *
  have h1 : a + (2 ^ 64 - b) = (a - b) + 2 ^ 64 := by omega
  rw [h1, Nat.add_mod_right, Nat.mod_eq_of_lt (by omega)]

theorem add64_eq_add {a b : Nat} (h : a + b < UINT64_MOD) :
    add64 a b = a + b := Nat.mod_eq_of_lt h

theorem chunk_clamp_eq_min (cap rem n : Nat) :
    (if (if cap > rem then rem else cap) > n then n
     else if cap > rem then rem else cap) = min n (min rem cap) := by
  split_ifs <;> omega

/-! ### Read on an open reader: a closed form -/

/-- On an open reader within the invariant, a `Read` with a non-empty
buffer copies exactly `toReadVal` bytes, advances the offset by the same
amount, and reports `io.EOF` exactly when the new offset reaches
`fullSize`. -/
theorem read_open_eq (cfr : CameraFileReader) (p : List Nat)
    (hopen : cfr.closed = false) (hp : p ≠ [])
    (hba : cfr.offset ≤ cfr.fullSize) (hfs : cfr.fullSize < UINT64_MOD) :
    read cfr p =
      { count := toReadVal cfr p,
        err := if cfr.offset + toReadVal cfr p < cfr.fullSize then none
               else some ReadErr.eof,
        state := { cfr with offset := cfr.offset + toReadVal cfr p },
        buf := (cfr.data.drop cfr.offset).take (toReadVal cfr p)
                 ++ p.drop (toReadVal cfr p) } := by
  have hplen : ¬ p.length = 0 := fun h => hp (List.length_eq_zero.mp h)
  have hsub : sub64 cfr.fullSize cfr.offset = cfr.fullSize - cfr.offset :=
    sub64_eq_sub hba hfs
  have hT : toReadVal cfr p ≤ cfr.fullSize - cfr.offset := by
    unfold toReadVal; omega
  have hadd : add64 cfr.offset (toReadVal cfr p)
      = cfr.offset + toReadVal cfr p :=
    add64_eq_add (by omega)
  unfold read
  rw [hopen]
  simp only [Bool.false_eq_true, if_false, hplen, hsub,
    chunk_clamp_eq_min fileReaderBufferSize (cfr.fullSize - cfr.offset) p.length]
  rw [show min p.length (min (cfr.fullSize - cfr.offset) fileReaderBufferSize)
        = toReadVal cfr p from rfl, hadd]
  split_ifs with hlt <;> rfl

/-! ### Claim theorems -/

/-- C1: on an open reader obeying the invariant, every `Read(p)` returns
and copies exactly `min (len p) (fullSize - offset) chunkCap` bytes,
where `chunkCap` is the fixed 1 MiB ceiling, and in particular never
more than the remaining `fullSize - offset` bytes. -/
theorem read_count_min (cfr : CameraFileReader) (p : List Nat)
    (hopen : cfr.closed = false)
    (hba : cfr.offset ≤ cfr.fullSize) (hfs : cfr.fullSize < UINT64_MOD) :
    (read cfr p).count
        = min p.length (min (cfr.fullSize - cfr.offset) fileReaderBufferSize) ∧
    (read cfr p).count ≤ cfr.fullSize - cfr.offset ∧
    (read cfr p).buf
        = (cfr.data.drop cfr.offset).take ((read cfr p).count)
            ++ p.drop ((read cfr p).count) := by
  by_cases hp : p = []
  · subst hp
    rw [show read cfr [] = { count := 0, err := none, state := cfr, buf := [] } by
      unfold read; rw [hopen]; simp]
    refine ⟨by simp, by simp, by simp⟩
  · rw [read_open_eq cfr p hopen hp hba hfs]
    refine ⟨rfl, ?_, rfl⟩
    show toReadVal cfr p ≤ cfr.fullSize - cfr.offset
    unfold toReadVal; omega

/-- C1 witness: a concrete 3-byte stream read with a 2-byte buffer. -/
theorem read_count_min_witness :
    (read (fileReader 3 [1, 2, 3]) [0, 0]).count
        = min ([0, 0] : List Nat).length
            (min ((fileReader 3 [1, 2, 3]).fullSize
              - (fileReader 3 [1, 2, 3]).offset) fileReaderBufferSize) ∧
    (read (fileReader 3 [1, 2, 3]) [0, 0]).count
        ≤ (fileReader 3 [1, 2, 3]).fullSize - (fileReader 3 [1, 2, 3]).offset ∧
    (read (fileReader 3 [1, 2, 3]) [0, 0]).buf
        = ((fileReader 3 [1, 2, 3]).data.drop (fileReader 3 [1, 2, 3]).offset).take
            ((read (fileReader 3 [1, 2, 3]) [0, 0]).count)
            ++ ([0, 0] : List Nat).drop ((read (fileReader 3 [1, 2, 3]) [0, 0]).count) :=
  read_count_min (fileReader 3 [1, 2, 3]) [0, 0] rfl (by decide) (by decide)

/-- C2 counterexample: on an open reader whose offset already equals
`fullSize` (here a zero-byte stream), a `Read` with an empty buffer
returns no error at all — it does not report end-of-stream, contrary to
the claim that every subsequent `Read` with any buffer, including an
empty one, reports end-of-stream. -/
theorem read_empty_at_end_no_eof :
    (fileReader 0 []).offset = (fileReader 0 []).fullSize ∧
    (fileReader 0 []).closed = false ∧
    (read (fileReader 0 []) []).err = none ∧
    ¬ (read (fileReader 0 []) []).err = some ReadErr.eof := by decide

/-- C2 (amended): on an open reader obeying the invariant, a `Read`
with a NON-empty buffer reports end-of-stream exactly when the offset
equals `fullSize` after the copy, alongside the bytes copied in that
same call; and once `offset = fullSize`, every subsequent `Read` with a
non-empty buffer reports end-of-stream with zero new bytes and leaves
the offset at `fullSize`.  (A `Read` with an empty buffer instead
returns zero bytes and no error.) -/
theorem read_eof_iff_end (cfr : CameraFileReader) (p : List Nat)
    (hopen : cfr.closed = false) (hp : p ≠ [])
    (hba : cfr.offset ≤ cfr.fullSize) (hfs : cfr.fullSize < UINT64_MOD) :
    ((read cfr p).err = some ReadErr.eof
        ↔ (read cfr p).state.offset = cfr.fullSize) ∧
    (cfr.offset = cfr.fullSize →
      (read cfr p).count = 0 ∧ (read cfr p).err = some ReadErr.eof ∧
      (read cfr p).state.offset = cfr.fullSize) := by
  rw [read_open_eq cfr p hopen hp hba hfs]
  have hT : toReadVal cfr p ≤ cfr.fullSize - cfr.offset := by
    unfold toReadVal; omega
  constructor
  · show (if cfr.offset + toReadVal cfr p < cfr.fullSize then none
          else some ReadErr.eof) = some ReadErr.eof
        ↔ cfr.offset + toReadVal cfr p = cfr.fullSize
    split_ifs with hlt <;> simp <;> omega
  · intro hend
    have hT0 : toReadVal cfr p = 0 := by unfold toReadVal at *; omega
    refine ⟨hT0, ?_, ?_⟩
    · show (if cfr.offset + toReadVal cfr p < cfr.fullSize then none
            else some ReadErr.eof) = some ReadErr.eof
      rw [if_neg (by omega)]
    · show cfr.offset + toReadVal cfr p = cfr.fullSize
      omega

/-- C2 witness: a concrete one-byte stream read with a one-byte buffer
(the read consumes the stream and reports end-of-stream in-band). -/
theorem read_eof_iff_end_witness :
    ((read (fileReader 1 [7]) [0]).err = some ReadErr.eof
        ↔ (read (fileReader 1 [7]) [0]).state.offset = (fileReader 1 [7]).fullSize) ∧
    ((fileReader 1 [7]).offset = (fileReader 1 [7]).fullSize →
      (read (fileReader 1 [7]) [0]).count = 0 ∧
      (read (fileReader 1 [7]) [0]).err = some ReadErr.eof ∧
      (read (fileReader 1 [7]) [0]).state.offset = (fileReader 1 [7]).fullSize) :=
  read_eof_iff_end (fileReader 1 [7]) [0] rfl (by decide) (by decide) (by decide)

/-- C6: after `Close()`, every `Read` fails with the closed-stream error
(`io.ErrClosedPipe`), returns zero bytes, leaves the caller's buffer
untouched and the reader state (in particular the offset) unchanged.
Since the state is returned unchanged, the same holds for every
subsequent `Read` as well. -/
theorem read_after_close (cfr : CameraFileReader) (p : List Nat) :
    read (close cfr).state p =
      { count := 0, err := some ReadErr.closedPipe,
        state := (close cfr).state, buf := p } := by
  have h : (close cfr).state.closed = true := by
    unfold close; cases hc : cfr.closed <;> simp [hc]
  unfold read
  rw [h]
  simp

/-- C7: `Close()` on an open reader returns no error, performs exactly
one release of the native file object, and latches `closed`; a second
`Close()` is a no-op: no error, no second release, state unchanged. -/
theorem close_idempotent (cfr : CameraFileReader) (hopen : cfr.closed = false) :
    (close cfr).err = none ∧
    (close cfr).releases = 1 ∧
    (close cfr).state.closed = true ∧
    close (close cfr).state =
      { err := none, state := (close cfr).state, releases := 0 } := by
  simp [close, hopen]

/-- C7 witness: closing a concrete fresh reader twice. -/
theorem close_idempotent_witness :
    (close (fileReader 2 [5, 6])).err = none ∧
    (close (fileReader 2 [5, 6])).releases = 1 ∧
    (close (fileReader 2 [5, 6])).state.closed = true ∧
    close (close (fileReader 2 [5, 6])).state =
      { err := none, state := (close (fileReader 2 [5, 6])).state,
        releases := 0 } :=
  close_idempotent (fileReader 2 [5, 6]) rfl

/-- C10 (implicit): on a reader that is not closed, a `Read` with a
zero-length buffer returns zero bytes and no error — even when
`offset = fullSize`, where no end-of-stream indication is produced —
and leaves the reader state unchanged. -/
theorem read_empty_buffer_noop (cfr : CameraFileReader)
    (hopen : cfr.closed = false) :
    read cfr [] = { count := 0, err := none, state := cfr, buf := [] } := by
  unfold read
  rw [hopen]
  simp

/-- C10 witness: a concrete exhausted reader (`offset = fullSize = 0`),
where even then the empty-buffer read reports no end-of-stream. -/
theorem read_empty_buffer_noop_witness :
    read (fileReader 0 []) []
        = { count := 0, err := none, state := fileReader 0 [], buf := [] } ∧
    (fileReader 0 []).offset = (fileReader 0 []).fullSize :=
  ⟨read_empty_buffer_noop (fileReader 0 []) rfl, rfl⟩

/-! ### State-machine lemmas for C8 -/

theorem read_nil_eq (cfr : CameraFileReader) (hopen : cfr.closed = false) :
    read cfr [] = { count := 0, err := none, state := cfr, buf := [] } := by
  unfold read
  rw [hopen]
  simp

theorem close_state_eq (cfr : CameraFileReader) :
    (close cfr).state = { cfr with closed := true } := by
  cases cfr with
  | mk fullSize offset closed data => cases closed <;> simp [close]

theorem read_state_step (cfr : CameraFileReader) (p : List Nat)
    (hinv : Inv cfr) :
    Inv (read cfr p).state ∧
    cfr.offset ≤ (read cfr p).state.offset ∧
    (read cfr p).state.fullSize = cfr.fullSize ∧
    (cfr.closed = true → (read cfr p).state.closed = true) := by
  obtain ⟨hba, hfs⟩ := hinv
  by_cases hc : cfr.closed = true
  · have hcl : read cfr p
        = { count := 0, err := some ReadErr.closedPipe, state := cfr, buf := p } := by
      unfold read; rw [hc]; simp
    rw [hcl]
    exact ⟨⟨hba, hfs⟩, le_refl _, rfl, fun h => h⟩
  · have hopen : cfr.closed = false := by
      cases h : cfr.closed
      · rfl
      · exact absurd h hc
    by_cases hp : p = []
    · subst hp
      rw [read_nil_eq cfr hopen]
      exact ⟨⟨hba, hfs⟩, le_refl _, rfl, fun h => h⟩
    · rw [read_open_eq cfr p hopen hp hba hfs]
      have hT : toReadVal cfr p ≤ cfr.fullSize - cfr.offset := by
        unfold toReadVal; omega
      refine ⟨⟨?_, hfs⟩, ?_, rfl, fun h => h⟩
      · show cfr.offset + toReadVal cfr p ≤ cfr.fullSize
        omega
      · show cfr.offset ≤ cfr.offset + toReadVal cfr p
        omega

theorem close_state_step (cfr : CameraFileReader) (hinv : Inv cfr) :
    Inv (close cfr).state ∧
    cfr.offset ≤ (close cfr).state.offset ∧
    (close cfr).state.fullSize = cfr.fullSize ∧
    (cfr.closed = true → (close cfr).state.closed = true) := by
  rw [close_state_eq]
  exact ⟨hinv, le_refl _, rfl, fun _ => rfl⟩

theorem step_preserves (s : CameraFileReader) (op : Op) (hinv : Inv s) :
    Inv (step s op) ∧ s.offset ≤ (step s op).offset ∧
    (step s op).fullSize = s.fullSize ∧
    (s.closed = true → (step s op).closed = true) := by
  cases op with
  | read p => exact read_state_step s p hinv
  | close => exact close_state_step s hinv

theorem runOps_preserves (ops : List Op) :
    ∀ s : CameraFileReader, Inv s →
      Inv (runOps s ops) ∧ s.offset ≤ (runOps s ops).offset ∧
      (runOps s ops).fullSize = s.fullSize ∧
      (s.closed = true → (runOps s ops).closed = true) := by
  induction ops with
  | nil => exact fun s hinv => ⟨hinv, le_refl _, rfl, fun h => h⟩
  | cons op t ih =>
    intro s hinv
    have hstep := step_preserves s op hinv
    have hrest := ih (step s op) hstep.1
    have hruns : runOps s (op :: t) = runOps (step s op) t := rfl
    rw [hruns]
    exact ⟨hrest.1, le_trans hstep.2.1 hrest.2.1,
      hrest.2.2.1.trans hstep.2.2.1,
      fun h => hrest.2.2.2 (hstep.2.2.2 h)⟩

/-- C8: from the state `FileReader` constructs (offset 0), every
sequence of `Read`/`Close` operations keeps `0 ≤ offset ≤ fullSize`,
every single further operation preserves the invariant, the offset never
decreases, `fullSize` never changes, and `closed` is a one-way latch. -/
theorem reader_state_invariants (fullSize : Nat) (data : List Nat)
    (ops : List Op) (op : Op) (hfs : fullSize < UINT64_MOD) :
    (fileReader fullSize data).offset = 0 ∧
    Inv (fileReader fullSize data) ∧
    Inv (runOps (fileReader fullSize data) ops) ∧
    Inv (step (runOps (fileReader fullSize data) ops) op) ∧
    (runOps (fileReader fullSize data) ops).offset
        ≤ (step (runOps (fileReader fullSize data) ops) op).offset ∧
    (step (runOps (fileReader fullSize data) ops) op).fullSize = fullSize ∧
    ((runOps (fileReader fullSize data) ops).closed = true →
      (step (runOps (fileReader fullSize data) ops) op).closed = true) := by
  have hinv0 : Inv (fileReader fullSize data) := ⟨Nat.zero_le _, hfs⟩
  have hrun := runOps_preserves ops (fileReader fullSize data) hinv0
  have hstep := step_preserves _ op hrun.1
  exact ⟨rfl, hinv0, hrun.1, hstep.1, hstep.2.1,
    hstep.2.2.1.trans hrun.2.2.1, hstep.2.2.2⟩

/-- C8 witness: a concrete run (one partial read, then a close, then an
attempted read) on a 2-byte stream. -/
theorem reader_state_invariants_witness :
    (fileReader 2 [5, 6]).offset = 0 ∧
    Inv (fileReader 2 [5, 6]) ∧
    Inv (runOps (fileReader 2 [5, 6]) [Op.read [0], Op.close]) ∧
    Inv (step (runOps (fileReader 2 [5, 6]) [Op.read [0], Op.close]) (Op.read [9])) ∧
    (runOps (fileReader 2 [5, 6]) [Op.read [0], Op.close]).offset
        ≤ (step (runOps (fileReader 2 [5, 6]) [Op.read [0], Op.close]) (Op.read [9])).offset ∧
    (step (runOps (fileReader 2 [5, 6]) [Op.read [0], Op.close]) (Op.read [9])).fullSize = 2 ∧
    ((runOps (fileReader 2 [5, 6]) [Op.read [0], Op.close]).closed = true →
      (step (runOps (fileReader 2 [5, 6]) [Op.read [0], Op.close]) (Op.read [9])).closed = true) :=
  reader_state_invariants 2 [5, 6] [Op.read [0], Op.close] (Op.read [9])
    (by unfold UINT64_MOD; norm_num)

/-! ### Folder-listing lemmas for C4 and C5 -/

theorem hasSuffixSlash_append_slash (l : GoStr) :
    hasSuffixSlash (l ++ ['/']) = true := by
  unfold hasSuffixSlash
  simp

theorem hasSuffixSlash_ensureSlash (folder : GoStr) :
    hasSuffixSlash (ensureSlash folder) = true := by
  unfold ensureSlash
  split_ifs with h
  · exact h
  · exact hasSuffixSlash_append_slash folder

theorem ensureSlash_idem (folder : GoStr) :
    ensureSlash (ensureSlash folder) = ensureSlash folder := by
  by_cases h1 : hasSuffixSlash folder = true
  · simp [ensureSlash, h1]
  · simp [ensureSlash, h1, hasSuffixSlash_append_slash]

theorem ensureSlash_ne_nil (folder : GoStr) : ensureSlash folder ≠ [] := by
  unfold ensureSlash
  split_ifs with h
  · intro hnil
    subst hnil
    exact absurd h (by decide)
  · simp

theorem foldl_append_cons_eq {α β : Type} (g : α → β) (f : α → List β) :
    ∀ (l : List α) (acc : List β),
      l.foldl (fun folders sub => (folders ++ [g sub]) ++ f sub) acc
        = acc ++ (l.map (fun sub => g sub :: f sub)).flatten := by
  intro l
  induction l with
  | nil => intro acc; simp
  | cons a t ih =>
    intro acc
    simp only [List.foldl_cons, List.map_cons, List.flatten_cons]
    rw [ih]
    simp [List.append_assoc]

theorem rListFolders_succ (native : GoStr → Except Unit (List GoStr))
    (fuel : Nat) (folder : GoStr) :
    rListFolders native (fuel + 1) folder
      = ((listFolders native (ensureSlash folder)).1.map
          (fun sub => (ensureSlash folder ++ sub)
            :: rListFolders native fuel (ensureSlash folder ++ sub))).flatten := by
  show (listFolders native (ensureSlash folder)).1.foldl
      (fun folders sub => (folders ++ [ensureSlash folder ++ sub])
        ++ rListFolders native fuel (ensureSlash folder ++ sub)) []
      = _
  rw [foldl_append_cons_eq (fun sub => ensureSlash folder ++ sub)
      (fun sub => rListFolders native fuel (ensureSlash folder ++ sub))]
  simp

theorem listFolders_recover_fst (native : GoStr → Except Unit (List GoStr))
    (folder : GoStr) :
    (listFolders (recover native) folder).1 = (listFolders native folder).1 := by
  unfold listFolders recover
  cases hn : native (if folder = [] then ['/'] else folder) <;> simp [hn]

theorem rListFolders_recover (native : GoStr → Except Unit (List GoStr))
    (fuel : Nat) :
    ∀ folder : GoStr,
      rListFolders native fuel folder
        = rListFolders (recover native) fuel folder := by
  induction fuel with
  | zero => intro folder; rfl
  | succ fuel ih =>
    intro folder
    rw [rListFolders_succ, rListFolders_succ, listFolders_recover_fst]
    simp only [ih]

/-! ### Claim theorems for the recursive listing -/

/-- C4 counterexample: on the concrete tree where `/` contains `a` and
`c` and `/a/` contains `b`, the code produces `/a, /a/b, /c` — the
direct subfolder path `/c` appears after the nested `/a/b` — whereas
the order stated by the claim (all direct subfolder paths appended
before recursing into each of them) would give `/a, /c, /a/b`. -/
theorem rListFolders_order_counterexample :
    rListFolders exampleNative 3 ['/']
        = [['/', 'a'], ['/', 'a', '/', 'b'], ['/', 'c']] ∧
    rListFoldersClaimed exampleNative 3 ['/']
        = [['/', 'a'], ['/', 'c'], ['/', 'a', '/', 'b']] ∧
    ¬ rListFolders exampleNative 3 ['/']
        = rListFoldersClaimed exampleNative 3 ['/'] := by
  refine ⟨by decide, by decide, by decide⟩

/-- C4 (amended): `RListFolders` is a pre-order depth-first traversal:
each direct subfolder path is appended and then immediately recursed
into before the next sibling is appended (so descendants of an earlier
sibling precede later siblings); and paths are built by appending a
single trailing separator exactly when one is not already present,
never double-inserting one. -/
theorem rListFolders_preorder (native : GoStr → Except Unit (List GoStr))
    (fuel : Nat) (folder : GoStr) :
    rListFolders native (fuel + 1) folder
      = ((listFolders native (ensureSlash folder)).1.map
          (fun sub => (ensureSlash folder ++ sub)
            :: rListFolders native fuel (ensureSlash folder ++ sub))).flatten ∧
    hasSuffixSlash (ensureSlash folder) = true ∧
    ensureSlash (ensureSlash folder) = ensureSlash folder ∧
    (hasSuffixSlash folder = true → ensureSlash folder = folder) ∧
    (hasSuffixSlash folder = false → ensureSlash folder = folder ++ ['/']) := by
  refine ⟨rListFolders_succ native fuel folder,
    hasSuffixSlash_ensureSlash folder, ensureSlash_idem folder, ?_, ?_⟩
  · intro h; simp [ensureSlash, h]
  · intro h; simp [ensureSlash, h]

/-- C4 witness: the amended statement at the concrete example tree. -/
theorem rListFolders_preorder_witness :
    rListFolders exampleNative (2 + 1) ['/']
      = ((listFolders exampleNative (ensureSlash ['/'])).1.map
          (fun sub => (ensureSlash ['/'] ++ sub)
            :: rListFolders exampleNative 2 (ensureSlash ['/'] ++ sub))).flatten ∧
    hasSuffixSlash (ensureSlash ['/']) = true ∧
    ensureSlash (ensureSlash ['/']) = ensureSlash ['/'] ∧
    (hasSuffixSlash ['/'] = true → ensureSlash ['/'] = ['/']) ∧
    (hasSuffixSlash ['/'] = false → ensureSlash ['/'] = ['/'] ++ ['/']) :=
  rListFolders_preorder exampleNative 2 ['/']

/-- C5: `RListFolders` returns a plain list (no error): it behaves
exactly as if every failing `ListFolders` call had returned an empty
listing, so a failing level contributes no entries while the rest of
the traversal continues; in particular a root-level failure yields the
empty enumeration rather than an error. -/
theorem rListFolders_swallows_errors
    (native : GoStr → Except Unit (List GoStr)) (fuel : Nat) (folder : GoStr) :
    rListFolders native fuel folder
        = rListFolders (recover native) fuel folder ∧
    (∀ e : Unit, native (ensureSlash folder) = Except.error e →
      rListFolders native (fuel + 1) folder = []) := by
  refine ⟨rListFolders_recover native fuel folder, ?_⟩
  intro e herr
  have h1 : (listFolders native (ensureSlash folder)).1 = [] := by
    simp only [listFolders]
    rw [if_neg (ensureSlash_ne_nil folder), herr]
  rw [rListFolders_succ, h1]
  rfl

/-- C5 witness: a root-level native failure on a concrete oracle yields
the empty enumeration and no error. -/
theorem rListFolders_swallows_errors_witness :
    rListFolders failingNative (2 + 1) ['/'] = [] :=
  (rListFolders_swallows_errors failingNative 2 ['/']).2 () rfl

/-! ### Claim theorems for the event channel -/

/-- C3 counterexample: the goroutine spawned by `AsyncWaitForEvent`
performs exactly one channel operation — the send — and never performs
a close, contrary to the claim that the channel is closed after the
event is delivered (a caller receiving a second time therefore blocks
rather than observing a closed channel). -/
theorem asyncWaitForEvent_never_closes :
    (asyncWaitForEventChanOps { name := [], folder := [] } EventTimeout).length = 1 ∧
    ChanOp.close ∉ asyncWaitForEventChanOps { name := [], folder := [] } EventTimeout := by
  refine ⟨rfl, by decide⟩

/-- C3 (amended): each `AsyncWaitForEvent` call spawns a goroutine
whose complete sequence of operations on the returned channel is a
single send of the decoded `CameraEvent`; the channel is never closed,
so a caller receiving repeatedly observes one event and then blocks. -/
theorem asyncWaitForEvent_single_send (payload : CCameraFilePath)
    (eventType : CameraEventType) :
    asyncWaitForEventChanOps payload eventType
        = [ChanOp.send (cCameraEventToGoCameraEvent payload eventType)] ∧
    ((asyncWaitForEventChanOps payload eventType).filter
        (fun op => match op with
          | ChanOp.send _ => true
          | ChanOp.close => false)).length = 1 ∧
    ChanOp.close ∉ asyncWaitForEventChanOps payload eventType := by
  refine ⟨rfl, rfl, ?_⟩
  simp [asyncWaitForEventChanOps]

/-! ### Claim theorem for GetConfig -/

/-- C9: `GetConfig` allocates the root window widget and then populates
it; whenever population fails after a successful allocation, the root
widget is freed (`gp_widget_free`) before the error is returned, so the
error return does not leak the root widget. -/
theorem getConfig_no_leak (widgetNewRes cameraGetConfigRes : Int)
    (hnew : widgetNewRes = 0) (hpop : cameraGetConfigRes ≠ 0) :
    (getConfig widgetNewRes cameraGetConfigRes).err = some cameraGetConfigRes ∧
    (getConfig widgetNewRes cameraGetConfigRes).ok = false ∧
    (getConfig widgetNewRes cameraGetConfigRes).effects
        = [GetConfigEffect.gpWidgetNew, GetConfigEffect.gpCameraGetConfig,
           GetConfigEffect.gpWidgetFree] ∧
    GetConfigEffect.gpWidgetFree
        ∈ (getConfig widgetNewRes cameraGetConfigRes).effects := by
  subst hnew
  unfold getConfig cameraResultToError
  simp [hpop]

/-- C9 witness: successful allocation (`0`) followed by a failing
population (`-1`). -/
theorem getConfig_no_leak_witness :
    (getConfig 0 (-1)).err = some (-1) ∧
    (getConfig 0 (-1)).ok = false ∧
    (getConfig 0 (-1)).effects
        = [GetConfigEffect.gpWidgetNew, GetConfigEffect.gpCameraGetConfig,
           GetConfigEffect.gpWidgetFree] ∧
    GetConfigEffect.gpWidgetFree ∈ (getConfig 0 (-1)).effects :=
  getConfig_no_leak 0 (-1) rfl (by decide)

end Gphoto2go
